import Mathlib

/-!
Verification of the corep-assistant repository: a shallow embedding of the
retrieval subsystem (`src/retrieval/retriever.py`), the data schemas
(`src/schemas.py`) and the validation subsystem (`src/validation/validator.py`),
together with theorems settling the specification claims about them.

Modelling conventions:
* Python floats are modelled as exact rationals (`ℚ`); float arithmetic is
  idealised as exact rational arithmetic.  IEEE doubles are rationals, and none
  of the properties proved here depends on rounding of individual operations.
* The sentence-transformer embedding model is an external collaborator; it is
  modelled as an arbitrary function `String → List ℚ` carried by the retriever.
* `numpy.linalg.norm` computes `sqrt (Σ xᵢ²)` with the machine square root.
  The machine square root is a platform function on floats, i.e. on rationals;
  it is modelled as an arbitrary parameter `npSqrt : ℚ → ℚ`.  All theorems are
  proved for every such function.
* `numpy.argsort` sorts indices by value in ascending order.  It is modelled as
  a stable ascending sort (`List.insertionSort`), which is deterministic and
  matches numpy's behaviour on small arrays (numpy falls back to insertion sort
  below 16 elements, and the corpus here is tiny); stability is exactly the
  determinism the specification mandates for tie-breaking.
* Python state (`self.errors` / `self.warnings` on `CR1Validator`) is threaded
  explicitly: the validator operations take a `ValidatorState` and return the
  updated state.  They additionally return the row / template object as it is
  after the call, so that absence of mutation is a provable statement.
-/

namespace Corep

/-! ## Schemas (`src/schemas.py`) -/

/-- Standardized exposure classes from COREP CR1 (`ExposureClass` enum). -/
inductive ExposureClass where
  | CENTRAL_GOVERNMENTS
  | INSTITUTIONS
  | CORPORATES
  | RETAIL
  | RESIDENTIAL_MORTGAGES
  | COMMERCIAL_REAL_ESTATE
deriving DecidableEq

/-- The string value of each `ExposureClass` member. -/
def ExposureClass.value : ExposureClass → String
  | .CENTRAL_GOVERNMENTS => "Central governments or central banks"
  | .INSTITUTIONS => "Institutions"
  | .CORPORATES => "Corporates"
  | .RETAIL => "Retail"
  | .RESIDENTIAL_MORTGAGES => "Exposures secured by mortgages on residential property"
  | .COMMERCIAL_REAL_ESTATE => "Exposures secured by mortgages on commercial immovable property"

/-- Citation to a PRA Rulebook article (`RegulatoryReference`). -/
structure RegulatoryReference where
  article_number : ℤ
  source : String
  excerpt : String
deriving DecidableEq

/-- Single row in the COREP CR1 template (`CR1Row`). -/
structure CR1Row where
  exposure_class : ExposureClass
  original_exposure_value : ℚ
  risk_weight_percent : ℤ
  risk_weighted_assets : ℚ
  regulatory_references : List RegulatoryReference
deriving DecidableEq

/-- `CR1Row.calculate_rwa`: RWA from exposure and risk weight,
`self.original_exposure_value * (self.risk_weight_percent / 100)`. -/
def CR1Row.calculate_rwa (self : CR1Row) : ℚ :=
  self.original_exposure_value * ((self.risk_weight_percent : ℚ) / 100)

/-- COREP CR1 template (`CR1Template`). -/
structure CR1Template where
  rows : List CR1Row
  total_exposure : ℚ
  total_rwa : ℚ
deriving DecidableEq

/-- `CR1Template.validate_totals`: check that declared totals match the sums
over the rows within an absolute tolerance of 0.01. -/
def CR1Template.validate_totals (self : CR1Template) : List String :=
  let errors : List String := []
  let calculated_exposure := (self.rows.map (fun row => row.original_exposure_value)).sum
  let calculated_rwa := (self.rows.map (fun row => row.risk_weighted_assets)).sum
  let errors := if 1/100 < |calculated_exposure - self.total_exposure| then
      errors ++ ["Total exposure mismatch: declared " ++ toString self.total_exposure ++
        ", calculated " ++ toString calculated_exposure]
    else errors
  let errors := if 1/100 < |calculated_rwa - self.total_rwa| then
      errors ++ ["Total RWA mismatch: declared " ++ toString self.total_rwa ++
        ", calculated " ++ toString calculated_rwa]
    else errors
  errors

/-! ## Validator (`src/validation/validator.py`) -/

/-- The mutable attributes of a `CR1Validator` instance
(`self.errors`, `self.warnings`), threaded explicitly. -/
structure ValidatorState where
  errors : List String
  warnings : List String
deriving DecidableEq

/-- `CR1Validator.__init__`: both lists start empty. -/
def CR1Validator.init : ValidatorState := { errors := [], warnings := [] }

/-- `CR1Validator.validate_row`: validate a single CR1 row.  Returns the local
`errors` list, the updated validator state (an empty `regulatory_references`
list appends to `self.warnings`), and the row object as it is after the call
(the source assigns to no attribute of `row`, so it is returned unchanged). -/
def validate_row (self : ValidatorState) (row : CR1Row) :
    List String × ValidatorState × CR1Row :=
  let errors : List String := []
  let errors := if row.original_exposure_value ≤ 0 then
      errors ++ ["Invalid exposure value: " ++ toString row.original_exposure_value]
    else errors
  let errors := if row.risk_weight_percent < 0 ∨ 1250 < row.risk_weight_percent then
      errors ++ ["Invalid risk weight: " ++ toString row.risk_weight_percent ++ "%"]
    else errors
  let expected_rwa := row.calculate_rwa
  let errors := if 1/100 < |row.risk_weighted_assets - expected_rwa| then
      errors ++ ["RWA mismatch: declared " ++ toString row.risk_weighted_assets ++
        ", calculated " ++ toString expected_rwa]
    else errors
  let self := if row.regulatory_references.isEmpty then
      { self with warnings := self.warnings ++
          ["No regulatory references for " ++ row.exposure_class.value] }
    else self
  (errors, self, row)

/-- The result dictionary returned by `CR1Validator.validate_template`. -/
structure ValidationResult where
  is_valid : Bool
  errors : List String
  warnings : List String
deriving DecidableEq

/-- The `for i, row in enumerate(template.rows)` loop of `validate_template`:
collects the prefixed row errors (1-based index, counter `i` starts at 0),
threads the validator state, and rebuilds the row list as the loop leaves it. -/
def validateRowsLoop (self : ValidatorState) (i : ℕ) :
    List CR1Row → List String × ValidatorState × List CR1Row
  | [] => ([], self, [])
  | row :: rest =>
    let res := validate_row self row
    let prefixed := if res.1.isEmpty then []
      else res.1.map (fun err => "Row " ++ toString (i + 1) ++ ": " ++ err)
    let rest_res := validateRowsLoop res.2.1 (i + 1) rest
    (prefixed ++ rest_res.1, rest_res.2.1, res.2.2 :: rest_res.2.2)

/-- `CR1Validator.validate_template`: validate each row (prefixing errors with
the 1-based row index), append the totals errors, and report
`is_valid = (len(all_errors) == 0)` together with `self.warnings`.  The
template object as it is after the call is returned as the third component. -/
def validate_template (self : ValidatorState) (template : CR1Template) :
    ValidationResult × ValidatorState × CR1Template :=
  let loop := validateRowsLoop self 0 template.rows
  let all_errors := loop.1 ++ template.validate_totals
  ({ is_valid := all_errors.length == 0, errors := all_errors, warnings := loop.2.1.warnings },
   loop.2.1,
   { template with rows := loop.2.2 })

/-! ## Audit trail (`CR1Validator.generate_audit_trail`) -/

/-- Python banker's rounding of a rational to the nearest integer
(ties go to the even integer), as used by the `"{:,.0f}"` format. -/
def roundHalfEven (q : ℚ) : ℤ :=
  let f := ⌊q⌋
  if q - f < 1/2 then f
  else if 1/2 < q - f then f + 1
  else if f % 2 = 0 then f else f + 1

/-- Insert a thousands separator after every third digit; the input is the
digit list least-significant first, `k` counts digits until the next comma. -/
def commaGroupAux (k : ℕ) : List Char → List Char
  | [] => []
  | c :: cs => if k = 0 then ',' :: c :: commaGroupAux 2 cs
    else c :: commaGroupAux (k - 1) cs

/-- Render an integer with thousands separators, as Python's `"{:,d}"`. -/
def commaFormat (n : ℤ) : String :=
  let ds := (toString n.natAbs).toList.reverse
  (if n < 0 then "-" else "") ++ String.mk (commaGroupAux 3 ds).reverse

/-- Python's `"{x:,.0f}"`: round to an integer (half to even) and group digits.
(The negative-zero display of e.g. `-0.4` is idealised to `"0"`.) -/
def formatMoney (q : ℚ) : String := commaFormat (roundHalfEven q)

/-- The `"=" * 70` header rule. -/
def eqLine : String := String.mk (List.replicate 70 '=')

/-- The `"-" * 70` separator rule. -/
def dashLine : String := String.mk (List.replicate 70 '-')

/-- The `for i, row in enumerate(rows, 1)` loop of `generate_audit_trail`,
accumulating the trail string; `i` is the 1-based row counter. -/
def auditRowsLoop : ℕ → List CR1Row → String
  | _, [] => ""
  | i, row :: rest =>
    let trail := "Row " ++ toString i ++ ": " ++ row.exposure_class.value ++ "\n"
    let trail := trail ++ "  Exposure: £" ++ formatMoney row.original_exposure_value ++ "\n"
    let trail := trail ++ "  Risk Weight: " ++ toString row.risk_weight_percent ++ "%\n"
    let trail := trail ++ "  RWA: £" ++ formatMoney row.risk_weighted_assets ++ "\n"
    let trail := trail ++ "\n  Regulatory Basis:\n"
    let trail := trail ++ String.join (row.regulatory_references.map (fun ref =>
      "    • " ++ ref.source ++ "\n" ++ "      " ++ ref.excerpt ++ "\n"))
    let trail := trail ++ "\n" ++ dashLine ++ "\n\n"
    trail ++ auditRowsLoop (i + 1) rest

/-- `CR1Validator.generate_audit_trail`: the regulatory-justification record. -/
def generate_audit_trail (rows : List CR1Row) : String :=
  "AUDIT TRAIL - REGULATORY JUSTIFICATION\n" ++ eqLine ++ "\n\n" ++
    auditRowsLoop 1 rows

/-- The warning recorded for a row without regulatory references. -/
def noRefsWarning (row : CR1Row) : String :=
  "No regulatory references for " ++ row.exposure_class.value

/-- Spec-side description of the per-row phase of `validate_template`
(§4.4 of the spec): run `validate_row` on every row and prefix each of its
errors with the 1-based row index; `i` is the 0-based index of the first row. -/
def specRowErrors (i : ℕ) : List CR1Row → List String
  | [] => []
  | row :: rest =>
    ((validate_row CR1Validator.init row).1.map
      (fun err => "Row " ++ toString (i + 1) ++ ": " ++ err)) ++
    specRowErrors (i + 1) rest

/-- The warnings a list of rows contributes to the validator state:
one `noRefsWarning` per row whose reference list is empty, in row order. -/
def rowsWarnings : List CR1Row → List String
  | [] => []
  | row :: rest =>
    (if row.regulatory_references.isEmpty then [noRefsWarning row] else []) ++
    rowsWarnings rest

/-- Spec-side description of one audit-trail row block (§4.5 of the spec):
exposure class label, exposure value, risk weight, RWA, then every regulatory
reference's source and excerpt in citation order. -/
def auditRowBlock (i : ℕ) (row : CR1Row) : String :=
  "Row " ++ toString i ++ ": " ++ row.exposure_class.value ++ "\n" ++
    "  Exposure: £" ++ formatMoney row.original_exposure_value ++ "\n" ++
    "  Risk Weight: " ++ toString row.risk_weight_percent ++ "%\n" ++
    "  RWA: £" ++ formatMoney row.risk_weighted_assets ++ "\n" ++
    "\n  Regulatory Basis:\n" ++
    String.join (row.regulatory_references.map (fun ref =>
      "    • " ++ ref.source ++ "\n" ++ "      " ++ ref.excerpt ++ "\n")) ++
    "\n" ++ dashLine ++ "\n\n"

/-- Concatenation of a list of strings in order (used to state the audit-trail
characterisation). -/
def concatStrings : List String → String
  | [] => ""
  | s :: rest => s ++ concatStrings rest

/-! ## Retriever (`src/retrieval/retriever.py`) -/

/-- One loaded regulatory chunk: its text and metadata. -/
structure Chunk where
  text : String
  article_number : ℤ
  source : String
deriving DecidableEq

/-- One search result dictionary produced by `RegulatoryRetriever.search`. -/
structure SearchResult where
  text : String
  article_number : ℤ
  source : String
  relevance_score : ℚ
deriving DecidableEq

/-- A loaded `RegulatoryRetriever`: the chunks, their precomputed embeddings,
the external embedding model, and the machine square root used by
`numpy.linalg.norm`. -/
structure Retriever where
  chunks : List Chunk
  embeddings : List (List ℚ)
  embedder : String → List ℚ
  npSqrt : ℚ → ℚ

/-- `RegulatoryRetriever.__init__`: store the chunks and embed every chunk's
text with the external model. -/
def initRetriever (npSqrt : ℚ → ℚ) (embedder : String → List ℚ)
    (chunks : List Chunk) : Retriever :=
  { chunks := chunks,
    embeddings := (chunks.map (fun chunk => chunk.text)).map embedder,
    embedder := embedder,
    npSqrt := npSqrt }

/-- `numpy.dot` on two vectors. -/
def npDot (q d : List ℚ) : ℚ := (List.zipWith (fun a b => a * b) q d).sum

/-- `numpy.linalg.norm`: machine square root of the sum of squares. -/
def npNorm (npSqrt : ℚ → ℚ) (v : List ℚ) : ℚ :=
  npSqrt ((v.map (fun x => x * x)).sum)

/-- The cosine-similarity expression of `search`:
`np.dot(q, d) / (np.linalg.norm(q) * np.linalg.norm(d))`. -/
def cosineSimilarity (npSqrt : ℚ → ℚ) (q d : List ℚ) : ℚ :=
  npDot q d / (npNorm npSqrt q * npNorm npSqrt d)

/-- `numpy.argsort`: the indices `0 .. n-1` sorted ascending by value,
ties kept in index order (stable). -/
def npArgsort (xs : List ℚ) : List ℕ :=
  List.insertionSort (fun i j => xs.getD i 0 ≤ xs.getD j 0) (List.range xs.length)

/-- Python's slice `xs[s:]` for a possibly negative start `s`. -/
def pySliceFrom {α : Type} (s : ℤ) (xs : List α) : List α :=
  if s < 0 then xs.drop (xs.length - s.natAbs) else xs.drop s.toNat

/-- The default chunk used to totalise the (always in-range) `self.chunks[idx]`
lookup of the source. -/
def defaultChunk : Chunk := { text := "", article_number := 0, source := "" }

/-- The similarity list of `search`: the cosine similarity of the query
embedding against every stored document embedding. -/
def searchSimilarities (self : Retriever) (query : String) : List ℚ :=
  let query_embedding := self.embedder query
  self.embeddings.map (fun doc_embedding =>
    cosineSimilarity self.npSqrt query_embedding doc_embedding)

/-- The `top_indices` of `search`: `np.argsort(similarities)[-top_k:][::-1]`. -/
def topIndicesOf (self : Retriever) (query : String) (top_k : ℤ) : List ℕ :=
  (pySliceFrom (-top_k) (npArgsort (searchSimilarities self query))).reverse

/-- The result dictionary `search` builds for index `idx`. -/
def resultAt (self : Retriever) (similarities : List ℚ) (idx : ℕ) : SearchResult :=
  let chunk := self.chunks.getD idx defaultChunk
  { text := chunk.text,
    article_number := chunk.article_number,
    source := chunk.source,
    relevance_score := similarities.getD idx 0 }

/-- `RegulatoryRetriever.search`: embed the query, score every chunk by cosine
similarity, take `argsort(similarities)[-top_k:][::-1]`, and build the result
dictionaries in that order. -/
def search (self : Retriever) (query : String) (top_k : ℤ) : List SearchResult :=
  let similarities := searchSimilarities self query
  let top_indices := topIndicesOf self query top_k
  top_indices.map (fun idx => resultAt self similarities idx)

/-! ## Concrete inputs used by counterexamples and witnesses -/

/-- A concrete regulatory chunk (earlier corpus position). -/
def chunkA : Chunk := { text := "corporate exposures", article_number := 1, source := "sA" }

/-- A concrete regulatory chunk (later corpus position). -/
def chunkB : Chunk := { text := "residential mortgages", article_number := 2, source := "sB" }

/-- A retriever loaded with two chunks whose embeddings coincide (a constant
embedding model), so both chunks get equal similarity scores on every query. -/
def tieRetriever : Retriever := initRetriever id (fun _ => [1]) [chunkA, chunkB]

/-- An arithmetically consistent row whose `regulatory_references` list is
empty, so validating it records a warning. -/
def exampleRowNoRefs : CR1Row :=
  { exposure_class := .CORPORATES,
    original_exposure_value := 100,
    risk_weight_percent := 100,
    risk_weighted_assets := 100,
    regulatory_references := [] }

/-- A template holding `exampleRowNoRefs` with matching declared totals. -/
def exampleTemplateNoRefs : CR1Template :=
  { rows := [exampleRowNoRefs], total_exposure := 100, total_rwa := 100 }

/-! ## Helper lemmas about the validator -/

theorem validate_row_fst_eq (self : ValidatorState) (row : CR1Row) :
    (validate_row self row).1 =
      (if row.original_exposure_value ≤ 0 then
        ["Invalid exposure value: " ++ toString row.original_exposure_value] else []) ++
      (if row.risk_weight_percent < 0 ∨ 1250 < row.risk_weight_percent then
        ["Invalid risk weight: " ++ toString row.risk_weight_percent ++ "%"] else []) ++
      (if 1/100 < |row.risk_weighted_assets - row.calculate_rwa| then
        ["RWA mismatch: declared " ++ toString row.risk_weighted_assets ++
          ", calculated " ++ toString row.calculate_rwa] else []) := by
  simp only [validate_row]
  split_ifs <;> simp

theorem validate_row_fst_state_irrel (self self' : ValidatorState) (row : CR1Row) :
    (validate_row self row).1 = (validate_row self' row).1 := by
  rw [validate_row_fst_eq, validate_row_fst_eq]

theorem validate_row_snd_errors (self : ValidatorState) (row : CR1Row) :
    (validate_row self row).2.1.errors = self.errors := by
  simp only [validate_row]
  split_ifs <;> rfl

theorem validate_row_snd_warnings (self : ValidatorState) (row : CR1Row) :
    (validate_row self row).2.1.warnings =
      self.warnings ++
        (if row.regulatory_references.isEmpty then [noRefsWarning row] else []) := by
  simp only [validate_row, noRefsWarning]
  split_ifs <;> simp

theorem validate_row_row_unchanged (self : ValidatorState) (row : CR1Row) :
    (validate_row self row).2.2 = row := rfl

theorem validateRowsLoop_fst (self : ValidatorState) (i : ℕ) (rows : List CR1Row) :
    (validateRowsLoop self i rows).1 = specRowErrors i rows := by
  induction rows generalizing self i with
  | nil => rfl
  | cons row rest ih =>
    simp only [validateRowsLoop, specRowErrors]
    rw [ih]
    rcases h : (validate_row self row).1.isEmpty with hcase | hcase
    · rw [if_neg (by simp [h]), validate_row_fst_state_irrel self CR1Validator.init]
    · rw [if_pos (by simp [h])]
      rw [validate_row_fst_state_irrel CR1Validator.init self,
        List.isEmpty_iff.mp h]
      simp

theorem validateRowsLoop_warnings (self : ValidatorState) (i : ℕ) (rows : List CR1Row) :
    (validateRowsLoop self i rows).2.1.warnings = self.warnings ++ rowsWarnings rows := by
  induction rows generalizing self i with
  | nil => simp [validateRowsLoop, rowsWarnings]
  | cons row rest ih =>
    simp only [validateRowsLoop, rowsWarnings]
    rw [ih, validate_row_snd_warnings]
    simp

theorem validateRowsLoop_errors (self : ValidatorState) (i : ℕ) (rows : List CR1Row) :
    (validateRowsLoop self i rows).2.1.errors = self.errors := by
  induction rows generalizing self i with
  | nil => rfl
  | cons row rest ih =>
    simp only [validateRowsLoop]
    rw [ih, validate_row_snd_errors]

theorem validateRowsLoop_rows (self : ValidatorState) (i : ℕ) (rows : List CR1Row) :
    (validateRowsLoop self i rows).2.2 = rows := by
  induction rows generalizing self i with
  | nil => rfl
  | cons row rest ih =>
    simp only [validateRowsLoop]
    rw [ih, validate_row_row_unchanged]

theorem validate_totals_eq (t : CR1Template) :
    t.validate_totals =
      (if 1/100 < |(t.rows.map (fun row => row.original_exposure_value)).sum - t.total_exposure| then
        ["Total exposure mismatch: declared " ++ toString t.total_exposure ++
          ", calculated " ++ toString (t.rows.map (fun row => row.original_exposure_value)).sum]
        else []) ++
      (if 1/100 < |(t.rows.map (fun row => row.risk_weighted_assets)).sum - t.total_rwa| then
        ["Total RWA mismatch: declared " ++ toString t.total_rwa ++
          ", calculated " ++ toString (t.rows.map (fun row => row.risk_weighted_assets)).sum]
        else []) := by
  simp only [CR1Template.validate_totals]
  split_ifs <;> simp

theorem validate_template_errors (self : ValidatorState) (t : CR1Template) :
    (validate_template self t).1.errors = specRowErrors 0 t.rows ++ t.validate_totals := by
  simp only [validate_template]
  rw [validateRowsLoop_fst]

theorem validate_template_warnings (self : ValidatorState) (t : CR1Template) :
    (validate_template self t).1.warnings = self.warnings ++ rowsWarnings t.rows := by
  simp only [validate_template]
  rw [validateRowsLoop_warnings]

theorem validate_template_is_valid (self : ValidatorState) (t : CR1Template) :
    (validate_template self t).1.is_valid = true ↔ (validate_template self t).1.errors = [] := by
  simp only [validate_template, beq_iff_eq, List.length_eq_zero]

theorem validate_template_state (self : ValidatorState) (t : CR1Template) :
    (validate_template self t).2.1 = (validateRowsLoop self 0 t.rows).2.1 := rfl

/-! ## Helper lemmas about the retriever -/

theorem npArgsort_pairwise (xs : List ℚ) :
    List.Pairwise (fun i j => xs.getD i 0 ≤ xs.getD j 0) (npArgsort xs) :=
  @List.sorted_insertionSort ℕ (fun i j => xs.getD i 0 ≤ xs.getD j 0) _
    ⟨fun _ _ => le_total _ _⟩ ⟨fun _ _ _ h1 h2 => le_trans h1 h2⟩ _

theorem npArgsort_length (xs : List ℚ) : (npArgsort xs).length = xs.length := by
  simp [npArgsort, List.length_insertionSort]

theorem npArgsort_nodup (xs : List ℚ) : (npArgsort xs).Nodup :=
  (List.perm_insertionSort _ _).nodup_iff.mpr (List.nodup_range _)

theorem pySliceFrom_eq_drop {α : Type} (s : ℤ) (xs : List α) :
    pySliceFrom s xs = xs.drop (if s < 0 then xs.length - s.natAbs else s.toNat) := by
  unfold pySliceFrom
  split_ifs <;> rfl

theorem pySliceFrom_sublist {α : Type} (s : ℤ) (xs : List α) :
    (pySliceFrom s xs).Sublist xs := by
  rw [pySliceFrom_eq_drop]
  exact List.drop_sublist _ _

theorem topIndicesOf_pairwise (r : Retriever) (q : String) (k : ℤ) :
    List.Pairwise
      (fun i j => (searchSimilarities r q).getD j 0 ≤ (searchSimilarities r q).getD i 0)
      (topIndicesOf r q k) := by
  unfold topIndicesOf
  rw [List.pairwise_reverse]
  exact List.Pairwise.sublist (pySliceFrom_sublist _ _) (npArgsort_pairwise _)

theorem search_eq_map (r : Retriever) (q : String) (k : ℤ) :
    search r q k = (topIndicesOf r q k).map (resultAt r (searchSimilarities r q)) := rfl

theorem search_pairwise (r : Retriever) (q : String) (k : ℤ) :
    List.Pairwise (fun a b : SearchResult => b.relevance_score ≤ a.relevance_score)
      (search r q k) := by
  rw [search_eq_map, List.pairwise_map]
  exact topIndicesOf_pairwise r q k

theorem searchSimilarities_length (npSqrt : ℚ → ℚ) (embedder : String → List ℚ)
    (chunks : List Chunk) (q : String) :
    (searchSimilarities (initRetriever npSqrt embedder chunks) q).length = chunks.length := by
  simp [searchSimilarities, initRetriever]

theorem topIndicesOf_length_pos (r : Retriever) (q : String) (k : ℤ) (hk : 1 ≤ k) :
    (topIndicesOf r q k).length = min k.toNat (searchSimilarities r q).length := by
  unfold topIndicesOf
  rw [pySliceFrom_eq_drop, if_pos (by omega : -k < 0)]
  simp only [List.length_reverse, List.length_drop, npArgsort_length]
  omega

theorem topIndicesOf_length_nonpos (r : Retriever) (q : String) (k : ℤ) (hk : k ≤ 0) :
    (topIndicesOf r q k).length = (searchSimilarities r q).length - k.natAbs := by
  unfold topIndicesOf
  rw [pySliceFrom_eq_drop, if_neg (by omega : ¬(-k < 0))]
  simp only [List.length_reverse, List.length_drop, npArgsort_length]
  omega

theorem tieRetriever_sims : searchSimilarities tieRetriever "q" = [1, 1] := by
  simp [searchSimilarities, tieRetriever, initRetriever, cosineSimilarity,
    npDot, npNorm, chunkA, chunkB]

theorem tieRetriever_topIndices : topIndicesOf tieRetriever "q" 2 = [1, 0] := by
  unfold topIndicesOf
  rw [tieRetriever_sims]
  simp [npArgsort, List.insertionSort, List.orderedInsert, pySliceFrom]

/-! ## Claim theorems -/

/-- **C1**: for every loaded corpus and every query, `search(query, top_k)`
with `top_k ≥ 1` returns exactly `min top_k (corpus size)` results (so a
`top_k` greater than the corpus size yields exactly `corpus_size` results,
without error), and the `relevance_score` values are in non-increasing order. -/
theorem search_returns_topk_sorted (npSqrt : ℚ → ℚ) (embedder : String → List ℚ)
    (chunks : List Chunk) (query : String) (top_k : ℤ) (h : 1 ≤ top_k) :
    (search (initRetriever npSqrt embedder chunks) query top_k).length =
        min top_k.toNat chunks.length ∧
    List.Pairwise (fun a b : SearchResult => b.relevance_score ≤ a.relevance_score)
      (search (initRetriever npSqrt embedder chunks) query top_k) := by
  constructor
  · rw [search_eq_map, List.length_map, topIndicesOf_length_pos _ _ _ h,
      searchSimilarities_length]
  · exact search_pairwise _ _ _

/-- Witness for C1 at a concrete input: two chunks, `top_k = 3`. -/
theorem search_returns_topk_sorted_witness :
    (1 : ℤ) ≤ 3 ∧
    ((search (initRetriever id (fun _ => [1]) [chunkA, chunkB]) "q" 3).length =
        min (3 : ℤ).toNat [chunkA, chunkB].length ∧
     List.Pairwise (fun a b : SearchResult => b.relevance_score ≤ a.relevance_score)
       (search (initRetriever id (fun _ => [1]) [chunkA, chunkB]) "q" 3)) :=
  ⟨by decide, search_returns_topk_sorted id (fun _ => [1]) [chunkA, chunkB] "q" 3 (by decide)⟩

/-- Counterexample for C4: with one loaded chunk, `search` called with
`top_k = 0` does not fail with an InvalidArgument condition — the slice
`argsort(similarities)[-0:]` is the whole array, so it returns the full
ranked corpus (here one result). -/
theorem search_topk_zero_cex :
    search (initRetriever id (fun _ => [1]) [chunkA]) "q" 0 =
      [{ text := chunkA.text, article_number := chunkA.article_number,
         source := chunkA.source, relevance_score := 1 }] := by
  simp [search, topIndicesOf, searchSimilarities, initRetriever, npArgsort,
    List.insertionSort, List.orderedInsert, cosineSimilarity, npDot, npNorm,
    pySliceFrom, resultAt, defaultChunk, chunkA]

/-- **C4 (amended)**: `search` performs no validation of `top_k` and never
signals InvalidArgument.  For `top_k ≤ 0` it returns
`corpus_size - |top_k|` results (all of the corpus for `top_k = 0`, fewer for
negative values, truncating at zero), still sorted by non-increasing score. -/
theorem search_nonpositive_topk (npSqrt : ℚ → ℚ) (embedder : String → List ℚ)
    (chunks : List Chunk) (query : String) (top_k : ℤ) (h : top_k ≤ 0) :
    (search (initRetriever npSqrt embedder chunks) query top_k).length =
        chunks.length - top_k.natAbs ∧
    List.Pairwise (fun a b : SearchResult => b.relevance_score ≤ a.relevance_score)
      (search (initRetriever npSqrt embedder chunks) query top_k) := by
  constructor
  · rw [search_eq_map, List.length_map, topIndicesOf_length_nonpos _ _ _ h,
      searchSimilarities_length]
  · exact search_pairwise _ _ _

/-- Witness for the amended C4 at a concrete input: one chunk, `top_k = 0`. -/
theorem search_nonpositive_topk_witness :
    (0 : ℤ) ≤ 0 ∧
    ((search (initRetriever id (fun _ => [1]) [chunkA]) "q" 0).length =
        [chunkA].length - (0 : ℤ).natAbs ∧
     List.Pairwise (fun a b : SearchResult => b.relevance_score ≤ a.relevance_score)
       (search (initRetriever id (fun _ => [1]) [chunkA]) "q" 0)) :=
  ⟨by decide, search_nonpositive_topk id (fun _ => [1]) [chunkA] "q" 0 (by decide)⟩

/-- Counterexample for C5: `search` over an empty corpus does not fail with an
EmptyCorpus condition — the source has no such check, and the call returns the
empty result sequence silently. -/
theorem search_empty_corpus_cex :
    search (initRetriever id (fun _ => [1]) []) "q" 5 = [] := by
  simp [search, topIndicesOf, searchSimilarities, initRetriever, npArgsort,
    pySliceFrom, List.insertionSort]

/-- **C5 (amended)**: for every query and every `top_k`, `search` over an
empty corpus returns the empty sequence (indistinguishable from "no relevant
matches"); no EmptyCorpus signal exists in the code. -/
theorem search_empty_corpus_returns_nil (npSqrt : ℚ → ℚ)
    (embedder : String → List ℚ) (query : String) (top_k : ℤ) :
    search (initRetriever npSqrt embedder []) query top_k = [] := by
  simp [search, topIndicesOf, searchSimilarities, initRetriever, npArgsort,
    pySliceFrom, List.insertionSort]

/-- Counterexample for C6: two chunks with equal similarity scores (a constant
embedding model).  The claim says the earlier corpus chunk (`chunkA`,
source "sA") is ranked earlier; in fact `search` returns the later chunk
first, because the stable ascending argsort keeps the earlier index first and
the final `[::-1]` reversal then puts it last. -/
theorem search_tie_cex :
    (searchSimilarities tieRetriever "q").getD 0 0 =
        (searchSimilarities tieRetriever "q").getD 1 0 ∧
    (search tieRetriever "q" 2).map (fun res => res.source) = ["sB", "sA"] := by
  constructor
  · rw [tieRetriever_sims]
    rfl
  · rw [search_eq_map, tieRetriever_topIndices]
    simp [resultAt, tieRetriever, initRetriever, chunkA, chunkB, defaultChunk]

/-- **C6 (amended)**: ties are broken deterministically, but in *reverse*
corpus order: if chunks `i < j` have equal similarity scores and chunk `i`
appears in the returned ranking, then chunk `j` also appears and is ranked
strictly earlier (`[j, i]` is a sublist of the ranked index sequence), and
`search` returns exactly the result dictionaries of that index sequence. -/
theorem search_tie_break (r : Retriever) (q : String) (k : ℤ) (i j : ℕ)
    (hij : i < j) (hjn : j < (searchSimilarities r q).length)
    (heq : (searchSimilarities r q).getD i 0 = (searchSimilarities r q).getD j 0)
    (hi : i ∈ topIndicesOf r q k) :
    [j, i].Sublist (topIndicesOf r q k) ∧
    search r q k = (topIndicesOf r q k).map (resultAt r (searchSimilarities r q)) := by
  refine ⟨?_, rfl⟩
  have hpair : [i, j].Sublist (npArgsort (searchSimilarities r q)) := by
    unfold npArgsort
    have h1 : [i].Sublist (List.range j) :=
      List.singleton_sublist.mpr (List.mem_range.mpr hij)
    have h2 : [i, j].Sublist (List.range (j + 1)) := by
      rw [List.range_succ]
      exact List.Sublist.append h1 (List.Sublist.refl [j])
    exact @List.pair_sublist_insertionSort _ _ _ i j _ (le_of_eq heq)
      (h2.trans (List.range_sublist.mpr hjn))
  set p := npArgsort (searchSimilarities r q) with hp
  obtain ⟨m, hm⟩ : ∃ m, pySliceFrom (-k) p = p.drop m := ⟨_, pySliceFrom_eq_drop _ _⟩
  have hnd : p.Nodup := npArgsort_nodup _
  have hi' : i ∈ p.drop m := by
    rw [← hm]
    exact List.mem_reverse.mp hi
  have hdrop : [i, j].Sublist (p.drop m) := by
    have hsplit := (List.take_append_drop m p).symm
    rw [hsplit] at hpair hnd
    rcases List.sublist_append_iff.mp hpair with ⟨l₁, l₂, hl, hsub1, hsub2⟩
    have hdisj := (List.nodup_append.mp hnd).2.2
    cases l₁ with
    | nil =>
      simp only [List.nil_append] at hl
      rwa [← hl] at hsub2
    | cons x l₁' =>
      exfalso
      have hx : x = i := by
        have := congrArg (fun l => l.head?) hl
        simpa using this.symm
      have hmem : i ∈ p.take m := hsub1.subset (hx ▸ List.mem_cons_self x l₁')
      exact hdisj hmem hi'
  unfold topIndicesOf
  rw [hm]
  have := List.reverse_sublist.mpr hdrop
  simpa using this

/-- Witness for the amended C6 at a concrete input: the two tied chunks of
`tieRetriever` with `top_k = 2`, `i = 0`, `j = 1`. -/
theorem search_tie_break_witness :
    (0 : ℕ) < 1 ∧
    1 < (searchSimilarities tieRetriever "q").length ∧
    (searchSimilarities tieRetriever "q").getD 0 0 =
        (searchSimilarities tieRetriever "q").getD 1 0 ∧
    0 ∈ topIndicesOf tieRetriever "q" 2 ∧
    ([1, 0].Sublist (topIndicesOf tieRetriever "q" 2) ∧
     search tieRetriever "q" 2 =
       (topIndicesOf tieRetriever "q" 2).map
         (resultAt tieRetriever (searchSimilarities tieRetriever "q"))) :=
  ⟨by decide,
   by rw [tieRetriever_sims]; decide,
   by rw [tieRetriever_sims]; rfl,
   by rw [tieRetriever_topIndices]; decide,
   search_tie_break tieRetriever "q" 2 0 1 (by decide)
     (by rw [tieRetriever_sims]; decide)
     (by rw [tieRetriever_sims]; rfl)
     (by rw [tieRetriever_topIndices]; decide)⟩

/-- **C2**: `validate_row` returns exactly one error per violated invariant
among non-positive exposure, risk weight outside `[0, 1250]`, and RWA further
than the absolute tolerance 0.01 from `exposure × weight/100`; the returned
error list does not depend on `regulatory_references` at all, and an empty
reference list only appends a non-blocking warning to the validator state. -/
theorem validate_row_invariants (self : ValidatorState) (row : CR1Row)
    (refs : List RegulatoryReference) :
    (validate_row self row).1.length =
      ((if row.original_exposure_value ≤ 0 then 1 else 0) +
       (if row.risk_weight_percent < 0 ∨ 1250 < row.risk_weight_percent then 1 else 0) +
       (if 1/100 < |row.risk_weighted_assets -
            row.original_exposure_value * ((row.risk_weight_percent : ℚ) / 100)| then 1
        else 0)) ∧
    (validate_row self { row with regulatory_references := refs }).1 =
      (validate_row self row).1 ∧
    (validate_row self row).2.1.warnings =
      self.warnings ++
        (if row.regulatory_references.isEmpty then [noRefsWarning row] else []) ∧
    (validate_row self row).2.1.errors = self.errors := by
  refine ⟨?_, ?_, validate_row_snd_warnings self row, validate_row_snd_errors self row⟩
  · rw [validate_row_fst_eq]
    simp only [CR1Row.calculate_rwa]
    split_ifs <;> simp
  · rw [validate_row_fst_eq, validate_row_fst_eq]
    rfl

/-- **C3**: `validate_template` runs `validate_row` over every row with
1-based index prefixes (`specRowErrors`), appends the totals errors (checked
with the same 0.01 absolute tolerance, mismatches being errors), reports
`is_valid` true iff the combined error list is empty, and neither `is_valid`
nor the error list depends on the validator's warning state. -/
theorem validate_template_contract (self : ValidatorState) (t : CR1Template) :
    (validate_template self t).1.errors = specRowErrors 0 t.rows ++ t.validate_totals ∧
    t.validate_totals =
      (if 1/100 <
          |(t.rows.map (fun row => row.original_exposure_value)).sum - t.total_exposure| then
        ["Total exposure mismatch: declared " ++ toString t.total_exposure ++
          ", calculated " ++ toString (t.rows.map (fun row => row.original_exposure_value)).sum]
        else []) ++
      (if 1/100 < |(t.rows.map (fun row => row.risk_weighted_assets)).sum - t.total_rwa| then
        ["Total RWA mismatch: declared " ++ toString t.total_rwa ++
          ", calculated " ++ toString (t.rows.map (fun row => row.risk_weighted_assets)).sum]
        else []) ∧
    ((validate_template self t).1.is_valid = true ↔ (validate_template self t).1.errors = []) ∧
    (∀ self' : ValidatorState,
      (validate_template self' t).1.is_valid = (validate_template self t).1.is_valid ∧
      (validate_template self' t).1.errors = (validate_template self t).1.errors) := by
  refine ⟨validate_template_errors self t, validate_totals_eq t,
    validate_template_is_valid self t, fun self' => ⟨?_, ?_⟩⟩
  · simp only [validate_template]
    rw [validateRowsLoop_fst, validateRowsLoop_fst]
  · rw [validate_template_errors, validate_template_errors]

/-- **C7**: `calculate_rwa` is exactly `exposure × (weight / 100)` in the
exact-rational model, and validation is idempotent: `validate_row` yields the
same error list on an unchanged row regardless of the validator state it is
called in (so any number of repeated calls returns the same errors, with no
accumulated drift). -/
theorem calculate_rwa_exact_idempotent (row : CR1Row) (self self' : ValidatorState) :
    row.calculate_rwa =
      row.original_exposure_value * ((row.risk_weight_percent : ℚ) / 100) ∧
    (validate_row self row).1 = (validate_row self' row).1 :=
  ⟨rfl, validate_row_fst_state_irrel self self' row⟩

/-- Counterexample for C8: on a template whose single row has no regulatory
references, the first and second calls of `validate_template` on the same
validator return different results — the second call's warning list repeats
the warning recorded by the first call. -/
theorem validate_template_impure_cex :
    (validate_template CR1Validator.init exampleTemplateNoRefs).1 ≠
      (validate_template
        (validate_template CR1Validator.init exampleTemplateNoRefs).2.1
        exampleTemplateNoRefs).1 := by
  intro h
  have hw := congrArg ValidationResult.warnings h
  rw [validate_template_warnings, validate_template_warnings, validate_template_state,
    validateRowsLoop_warnings] at hw
  simp [CR1Validator.init, exampleTemplateNoRefs, exampleRowNoRefs, rowsWarnings,
    noRefsWarning] at hw

/-- **C8 (amended)**: calling `validate_template` twice on the same validator
with the same template returns the same `is_valid` and the same `errors`, but
the warnings accumulate on the validator between calls: the second result's
warning list is the first one with the template's warnings appended again.
The two results coincide exactly when the template produces no warnings. -/
theorem validate_template_repeat (self : ValidatorState) (t : CR1Template) :
    (validate_template (validate_template self t).2.1 t).1.is_valid =
      (validate_template self t).1.is_valid ∧
    (validate_template (validate_template self t).2.1 t).1.errors =
      (validate_template self t).1.errors ∧
    (validate_template (validate_template self t).2.1 t).1.warnings =
      (validate_template self t).1.warnings ++ rowsWarnings t.rows := by
  refine ⟨?_, ?_, ?_⟩
  · simp only [validate_template]
    rw [validateRowsLoop_fst, validateRowsLoop_fst]
  · rw [validate_template_errors, validate_template_errors]
  · rw [validate_template_warnings, validate_template_warnings, validate_template_state,
      validateRowsLoop_warnings, List.append_assoc]

/-- **C9**: the audit-trail assembler is total and validation-free — for every
list of rows (including rows violating the validation invariants or with an
empty reference list) it produces the header followed by, per row in input
order, the block `auditRowBlock`: exposure class label, exposure value, risk
weight, RWA, and every regulatory reference's source and excerpt in citation
order, with 1-based row numbering. -/
theorem generate_audit_trail_total (rows : List CR1Row) :
    generate_audit_trail rows =
      "AUDIT TRAIL - REGULATORY JUSTIFICATION\n" ++ eqLine ++ "\n\n" ++
        concatStrings (List.zipWith auditRowBlock (List.range' 1 rows.length) rows) := by
  unfold generate_audit_trail
  congr 1
  suffices h : ∀ i, auditRowsLoop i rows =
      concatStrings (List.zipWith auditRowBlock (List.range' i rows.length) rows) from h 1
  induction rows with
  | nil => intro i; rfl
  | cons row rest ih =>
    intro i
    rw [List.length_cons, List.range'_succ, List.zipWith_cons_cons]
    show auditRowBlock i row ++ auditRowsLoop (i + 1) rest =
      concatStrings (auditRowBlock i row :: List.zipWith auditRowBlock
        (List.range' (i + 1) rest.length) rest)
    rw [ih (i + 1)]
    rfl

/-- **C10**: validation never mutates its input — after `validate_row` every
field of the row equals its value before the call, and after
`validate_template` every field of the template does too. -/
theorem validation_no_mutation (self : ValidatorState) (row : CR1Row) (t : CR1Template) :
    ((validate_row self row).2.2.exposure_class = row.exposure_class ∧
     (validate_row self row).2.2.original_exposure_value = row.original_exposure_value ∧
     (validate_row self row).2.2.risk_weight_percent = row.risk_weight_percent ∧
     (validate_row self row).2.2.risk_weighted_assets = row.risk_weighted_assets ∧
     (validate_row self row).2.2.regulatory_references = row.regulatory_references) ∧
    ((validate_template self t).2.2.rows = t.rows ∧
     (validate_template self t).2.2.total_exposure = t.total_exposure ∧
     (validate_template self t).2.2.total_rwa = t.total_rwa) := by
  refine ⟨⟨rfl, rfl, rfl, rfl, rfl⟩, ?_, rfl, rfl⟩
  simp only [validate_template]
  exact validateRowsLoop_rows self 0 t.rows

end Corep
